import Mathlib

/-!
Shallow embedding of the suggestion-selection engine and generation
pipeline of X_automation_studio, translated from
src/x_automation_studio/suggestion.py and src/main.py, together with
theorems settling the specification claims about them.
-/

namespace XAuto

/-- The selection mode enum (suggestion.py, class Mode(Enum)). -/
inductive Mode where
  | RANDOM
  | WEIGHTED
  | HIGHEST
deriving DecidableEq, Repr

/-- The prompt content-type enum (models.py, class PromptType(Enum)). -/
inductive PromptType where
  | TEXT
  | IMAGE
deriving DecidableEq, Repr

/-! ## String machinery

Python regular-expression operations used by suggestion.py, embedded as
character-list scans. -/

/-- Split a character list at the leftmost occurrence of the literal
pattern pat, returning the part strictly before the match and the part
strictly after it; none when pat does not occur. -/
def splitOnSub (pat : List Char) : List Char → Option (List Char × List Char)
  | [] => if pat.isPrefixOf ([] : List Char) then some ([], []) else none
  | c :: rest =>
    if pat.isPrefixOf (c :: rest) then some ([], (c :: rest).drop pat.length)
    else
      match splitOnSub pat rest with
      | some (pre, post) => some (c :: pre, post)
      | none => none

/-- Whether pat occurs as a contiguous substring of s (Python `in`). -/
def containsSub (pat s : String) : Bool :=
  (splitOnSub pat.data s.data).isSome

/-- The opening thinking delimiter of suggestion.py. -/
def openTag : List Char := "<thinking>".data

/-- The closing thinking delimiter of suggestion.py. -/
def closeTag : List Char := "</thinking>".data

/-- Left-to-right removal of non-overlapping openTag..closeTag blocks,
each block ending at the first closing tag after its opening tag
(the non-greedy DOTALL pattern of re.sub). The fuel argument bounds the
recursion; each removed block consumes at least one character, so fuel
equal to the input length always suffices. -/
def stripBlocks : Nat → List Char → List Char
  | 0, s => s
  | fuel + 1, s =>
    match splitOnSub openTag s with
    | none => s
    | some (pre, afterOpen) =>
      match splitOnSub closeTag afterOpen with
      | none => s
      | some (_, post) => pre ++ stripBlocks fuel post

/-- suggestion.py remove_thinking_tags: re.sub of the non-greedy,
multi-line pattern matching an opening thinking tag, any content, and a
closing thinking tag, replaced by the empty string. -/
def remove_thinking_tags (text : String) : String :=
  String.mk (stripBlocks text.data.length text.data)

/-- Leftmost match of the quoted-string pattern of suggestion.py
(a double quote, one or more non-quote characters, a closing double
quote), returning the characters between the quotes. -/
def findQuoted : List Char → Option (List Char)
  | [] => none
  | c :: rest =>
    if c = '"' then
      let content := rest.takeWhile (fun d => d ≠ '"')
      let remaining := rest.dropWhile (fun d => d ≠ '"')
      if content ≠ [] ∧ remaining ≠ [] then some content
      else findQuoted rest
    else findQuoted rest

/-- Python str.strip(): drop whitespace from both ends of the string. -/
def pyStrip (s : String) : String :=
  String.mk (((s.data.dropWhile Char.isWhitespace).reverse.dropWhile
    Char.isWhitespace).reverse)

/-- The last-resort extraction of get_suggestion: the first quoted string
of the raw response, stripped of surrounding whitespace; the empty string
when no quoted string exists. -/
def quoted_fallback (raw : String) : String :=
  match findQuoted raw.data with
  | some content => pyStrip (String.mk content)
  | none => ""

/-! ## Persisted records and the generation pipeline -/

/-- A Feedback row (models.py): integer score and optional comment. -/
structure FeedbackRow where
  score : Int
  comment : Option String
deriving DecidableEq, Repr

/-- A persisted TextOutput together with the feedback rows created with
it (models.py TextOutput, suggestion.py create_output_record). -/
structure OutputRecord where
  text : String
  prompt_id : Nat
  aimodel_id : Nat
  feedback : List FeedbackRow
deriving DecidableEq, Repr

/-- The dict returned by get_suggestion. -/
structure Suggestion where
  text : String
  prompt_id : Nat
  aimodel_id : Nat
deriving DecidableEq, Repr

/-- The comment of the negative record persisted when no tweet text could
be extracted (suggestion.py get_suggestion). -/
def emptyComment : String :=
  "Model response was empty or tweet text could not be extracted."

/-- The comment of the negative record persisted for an over-length
intermediate tweet (suggestion.py get_suggestion). -/
def overLengthComment : String :=
  "TextOutput should be a single tweet, <=280 characters with no other text, but exceeded that limit."

/-- create_output_record with a score of -1 and the given comment. -/
def mkPenaltyRecord (text : String) (pid mid : Nat) (comment : String) : OutputRecord :=
  ⟨text, pid, mid, [⟨-1, some comment⟩]⟩

/-- Outcome of the generation pipeline, together with the TextOutput
records persisted along the way. The stuck outcome marks the model stub
running out of responses (the real pipeline would call the model again). -/
inductive GenResult where
  | ok (s : Suggestion) (records : List OutputRecord)
  | emptyError (records : List OutputRecord)
  | stuck
deriving DecidableEq, Repr

/-- The while-loop of get_suggestion: while the text exceeds 280
characters, persist a negatively scored record, ask the model stub to
abbreviate, and strip thinking tags from the reply. -/
def shorten_loop (pid mid : Nat) (responses : List String) (text : String)
    (records : List OutputRecord) : GenResult :=
  if text.length ≤ 280 then .ok ⟨text, pid, mid⟩ records
  else
    match responses with
    | [] => .stuck
    | r :: rest =>
      shorten_loop pid mid rest (remove_thinking_tags r)
        (records ++ [mkPenaltyRecord text pid mid overLengthComment])

/-- The tail of get_suggestion after text extraction: an empty text is
penalized with a single negative record against the raw response and the
operation fails (raise ValueError); otherwise the shortening loop runs. -/
def finish_generation (pid mid : Nat) (raw text : String)
    (rest : List String) : GenResult :=
  if text = "" then .emptyError [mkPenaltyRecord raw pid mid emptyComment]
  else shorten_loop pid mid rest text []

/-- get_suggestion after prompt and model selection: the model is a stub
supplying a list of responses, consumed one call at a time. The first
response is the raw suggestion; thinking tags are stripped; if the result
is empty a fallback extraction call consumes the next response (stripped
and trimmed); if still empty the first quoted string of the raw response
is tried; the remaining responses feed the shortening loop. -/
def run_generation (pid mid : Nat) (responses : List String) : GenResult :=
  match responses with
  | [] => .stuck
  | raw :: rest =>
    if raw = "" then finish_generation pid mid raw "" rest
    else if remove_thinking_tags raw = "" then
      match rest with
      | [] => .stuck
      | r2 :: rest2 =>
        if pyStrip (remove_thinking_tags r2) = "" then
          finish_generation pid mid raw (quoted_fallback raw) rest2
        else finish_generation pid mid raw (pyStrip (remove_thinking_tags r2)) rest2
    else finish_generation pid mid raw (remove_thinking_tags raw) rest

/-! ## The data store and the selectors -/

/-- A Prompt row (models.py Prompt). -/
structure PromptRow where
  id : Nat
  prompt : String
  domain_id : Option Nat
  prompt_type : PromptType
deriving DecidableEq, Repr

/-- An AIModel row (models.py AIModel). -/
structure AIModelRow where
  id : Nat
  name : String
  text_output : Bool
  image_output : Bool
deriving DecidableEq, Repr

/-- The persisted state the selectors read: prompts, models, and text
outputs with their feedback. -/
structure DB where
  prompts : List PromptRow
  models : List AIModelRow
  outputs : List OutputRecord
deriving DecidableEq, Repr

/-- A Python exception escaping a selector: the ValueError raised by the
weighted selectors on an empty pool, or the AttributeError raised while
constructing an invalid query expression. -/
inductive PyError where
  | attributeError
  | valueError (msg : String)
deriving DecidableEq, Repr

/-- The class-level expression TextOutput.feedback.score that the four
score queries build (inside func.sum(func.coalesce(..., 0))):
TextOutput.feedback is a SQLAlchemy relationship, and accessing the
column attribute score on a relationship's class-level
InstrumentedAttribute raises AttributeError when the expression is
constructed, before any query executes. The payload type is the
per-output score aggregate the code intends; no value of it is ever
produced. -/
def feedback_score_attribute : Except PyError (OutputRecord → Int) :=
  .error .attributeError

/-- The select(Prompt) query shared by the three prompt selectors:
filter by domain when one is given, and by prompt type. -/
def prompt_candidates (db : DB) (domain_id : Option Nat) (ptype : PromptType) : List PromptRow :=
  db.prompts.filter (fun p =>
    (match domain_id with
     | some d => decide (p.domain_id = some d)
     | none => true)
    && decide (p.prompt_type = ptype))

/-- The select(AIModel).where(AIModel.text_output) query shared by the
three model selectors. -/
def model_candidates (db : DB) : List AIModelRow :=
  db.models.filter (fun m => m.text_output)

/-- select_random_prompt: order_by(func.random()).first(), the random
ordering modelled by an oracle index into the candidate list; none when
the pool is empty. -/
def select_random_prompt (db : DB) (domain_id : Option Nat) (pick : Nat) : Option PromptRow :=
  (prompt_candidates db domain_id PromptType.TEXT).get?
    (pick % (prompt_candidates db domain_id PromptType.TEXT).length)

/-- select_random_model: as select_random_prompt, over the models that
support text output. -/
def select_random_model (db : DB) (pick : Nat) : Option AIModelRow :=
  (model_candidates db).get? (pick % (model_candidates db).length)

/-- A candidate achieving the greatest score, none when the pool is
empty: the ranking the highest-rated selectors' docstrings intend. -/
def argmax_score {α : Type} (score : α → Int) : List α → Option α
  | [] => none
  | x :: xs => some (xs.foldl (fun best y => if score best < score y then y else best) x)

/-- select_highest_rated_prompt: the order_by expression is constructed
first and raises AttributeError on every call; were the score column
available, the query would be meant to return a prompt with the greatest
summed output feedback score (that branch is never reached). -/
def select_highest_rated_prompt (db : DB) (domain_id : Option Nat) :
    Except PyError (Option PromptRow) :=
  match feedback_score_attribute with
  | .error e => .error e
  | .ok col =>
    .ok (argmax_score
      (fun p => ((db.outputs.filter (fun o => decide (o.prompt_id = p.id))).map col).sum)
      (prompt_candidates db domain_id PromptType.TEXT))

/-- select_highest_rated_model: as select_highest_rated_prompt, over the
models that support text output; the order_by expression raises
AttributeError on every call. -/
def select_highest_rated_model (db : DB) :
    Except PyError (Option AIModelRow) :=
  match feedback_score_attribute with
  | .error e => .error e
  | .ok col =>
    .ok (argmax_score
      (fun m => ((db.outputs.filter (fun o => decide (o.aimodel_id = m.id))).map col).sum)
      (model_candidates db))

/-- softmax from suggestion.py, over the reals: exponentiate each weight
divided by the temperature, and divide each exponential by their sum. -/
noncomputable def softmax (weights : List ℝ) (temperature : ℝ) : List ℝ :=
  (weights.map (fun w => Real.exp (w / temperature))).map
    (fun e => e / (weights.map (fun w => Real.exp (w / temperature))).sum)

/-- The score shift of the weighted selectors: subtract the minimum score
from every score when the minimum is negative. -/
def shift_scores (scores : List Int) : List Int :=
  match scores with
  | [] => []
  | s :: rest =>
    if rest.foldl min s < 0 then scores.map (fun x => x - rest.foldl min s)
    else scores

/-- select_weighted_prompt: the empty-pool ValueError is raised before
any score query; on a nonempty pool the score loop constructs the
invalid column expression and raises AttributeError, so the softmax
sampling branch — pool together with its distribution — is never
reached. -/
noncomputable def select_weighted_prompt (db : DB) (domain_id : Option Nat)
    (temperature : ℝ) : Except PyError (List PromptRow × List ℝ) :=
  if prompt_candidates db domain_id PromptType.TEXT = [] then
    .error (.valueError "No prompts available for the specified domain")
  else
    match feedback_score_attribute with
    | .error e => .error e
    | .ok col =>
      .ok (prompt_candidates db domain_id PromptType.TEXT,
        softmax ((shift_scores ((prompt_candidates db domain_id PromptType.TEXT).map
          (fun p =>
            ((db.outputs.filter (fun o => decide (o.prompt_id = p.id))).map col).sum))).map
          (fun s : Int => (s : ℝ))) temperature)

/-- select_weighted_model: as select_weighted_prompt, over the models
that support text output. -/
noncomputable def select_weighted_model (db : DB)
    (temperature : ℝ) : Except PyError (List AIModelRow × List ℝ) :=
  if model_candidates db = [] then .error (.valueError "No models available")
  else
    match feedback_score_attribute with
    | .error e => .error e
    | .ok col =>
      .ok (model_candidates db,
        softmax ((shift_scores ((model_candidates db).map
          (fun m =>
            ((db.outputs.filter (fun o => decide (o.aimodel_id = m.id))).map col).sum))).map
          (fun s : Int => (s : ℝ))) temperature)

/-! ## The mode dispatch (main.py get_tweet_suggestion, suggestion.py
get_suggestion) -/

/-- A Python value passed as the mode argument of get_suggestion: either
a Mode enum member (the annotated type) or a plain string (what the
/suggestions endpoint of main.py actually passes). -/
inductive PyModeVal where
  | enum (m : Mode)
  | str (s : String)
deriving DecidableEq, Repr

/-- Python equality between the mode argument and a Mode enum member: a
plain Enum member equals only itself and never equals a string. -/
def py_mode_eq : PyModeVal → Mode → Bool
  | .enum m1, m2 => decide (m1 = m2)
  | .str _, _ => false

/-- The three selection policies a branch of get_suggestion applies. -/
inductive Policy where
  | highest_policy
  | weighted_policy
  | random_policy
deriving DecidableEq, Repr

/-- The selection dispatch of get_suggestion: compare the mode argument
against Mode.HIGHEST, then Mode.WEIGHTED, falling through to the random
branch. -/
def selection_policy (mode : PyModeVal) : Policy :=
  if py_mode_eq mode Mode.HIGHEST then .highest_policy
  else if py_mode_eq mode Mode.WEIGHTED then .weighted_policy
  else .random_policy

/-- main.py get_tweet_suggestion: the mode query parameter is a string
and is passed to get_suggestion unchanged. -/
def get_tweet_suggestion_policy (mode : String) : Policy :=
  selection_policy (.str mode)

/-! ## Prompt creation and rewriting (main.py add_prompt, suggestion.py
rewrite_prompt) -/

/-- The context placeholder every prompt template is meant to contain. -/
def context_placeholder : String := "\x7bcontext\x7d"

/-- main.py add_prompt: append the context placeholder sentence when the
supplied text lacks the placeholder, then persist the text. -/
def add_prompt_text (prompt_text : String) : String :=
  if containsSub context_placeholder prompt_text then prompt_text
  else prompt_text ++ "Consider the following user-provided context to seed your response: \x7bcontext\x7d"

/-- suggestion.py rewrite_prompt: the text persisted as the new Prompt is
the tag-stripped model response, with no placeholder check or append. -/
def rewrite_prompt_text (model_response : String) : String :=
  remove_thinking_tags model_response

/-! ## Concrete fixtures -/

/-- A 300-character model response (the over-length stub of the spec's
length-enforcement scenario). -/
def tweet300 : String := String.mk (List.replicate 300 'a')

/-- A 50-character model response returned after a shorten instruction. -/
def tweet50 : String := String.mk (List.replicate 50 'b')

/-- A response consisting only of a deliberative block, with nothing
outside it. -/
def onlyThinking : String := "<thinking>I will write a tweet</thinking>"

/-- A shortening response consisting only of a deliberative block, so
that stripping yields the empty string. -/
def thinkingOnlyShorten : String := "<thinking>shorter</thinking>"

/-- A store with no prompts, no models and no outputs. -/
def emptyDB : DB := ⟨[], [], []⟩

/-! ## Helper lemmas: the shortening loop and the pipeline -/

/-- Any suggestion the shortening loop accepts is within the 280-character
bound: the loop only returns when the length check passes. -/
theorem shorten_loop_ok_length (pid mid : Nat) (responses : List String) :
    ∀ (text : String) (records : List OutputRecord) (s : Suggestion)
      (recs : List OutputRecord),
      shorten_loop pid mid responses text records = .ok s recs →
      s.text.length ≤ 280 := by
  induction responses with
  | nil =>
    intro text records s recs h
    simp only [shorten_loop] at h
    split at h
    next hle => cases h; exact hle
    next => exact GenResult.noConfusion h
  | cons r rest ih =>
    intro text records s recs h
    simp only [shorten_loop] at h
    split at h
    next hle => cases h; exact hle
    next => exact ih _ _ _ _ h

/-- The shortening loop never raises the empty-text error. -/
theorem shorten_loop_ne_emptyError (pid mid : Nat) (responses : List String) :
    ∀ (text : String) (records recs : List OutputRecord),
      shorten_loop pid mid responses text records ≠ .emptyError recs := by
  induction responses with
  | nil =>
    intro text records recs h
    simp only [shorten_loop] at h
    split at h
    next => exact GenResult.noConfusion h
    next => exact GenResult.noConfusion h
  | cons r rest ih =>
    intro text records recs h
    simp only [shorten_loop] at h
    split at h
    next => exact GenResult.noConfusion h
    next => exact ih _ _ _ h

/-- Any suggestion finish_generation accepts is within the bound. -/
theorem finish_generation_ok_length (pid mid : Nat) (raw text : String)
    (rest : List String) (s : Suggestion) (recs : List OutputRecord)
    (h : finish_generation pid mid raw text rest = .ok s recs) :
    s.text.length ≤ 280 := by
  unfold finish_generation at h
  split at h
  next => exact GenResult.noConfusion h
  next => exact shorten_loop_ok_length pid mid rest text [] s recs h

/-- When finish_generation fails with the empty-text error, the records
persisted are exactly one negative record against the raw response. -/
theorem finish_generation_emptyError (pid mid : Nat) (raw text : String)
    (rest : List String) (recs : List OutputRecord)
    (h : finish_generation pid mid raw text rest = .emptyError recs) :
    recs = [mkPenaltyRecord raw pid mid emptyComment] := by
  unfold finish_generation at h
  split at h
  next =>
    injection h with h1
    exact h1.symm
  next => exact absurd h (shorten_loop_ne_emptyError pid mid rest text [] recs)

/-- Any suggestion the pipeline returns is within the 280-character
bound. -/
theorem run_generation_ok_length (pid mid : Nat) (responses : List String)
    (s : Suggestion) (recs : List OutputRecord)
    (h : run_generation pid mid responses = .ok s recs) :
    s.text.length ≤ 280 := by
  cases responses with
  | nil => exact GenResult.noConfusion h
  | cons raw rest =>
    simp only [run_generation] at h
    repeat' split at h
    all_goals
      first
      | exact GenResult.noConfusion h
      | exact finish_generation_ok_length _ _ _ _ _ _ _ h

/-- When the pipeline fails with the empty-text error, it persists exactly
one negative record, against the first raw model response. -/
theorem run_generation_emptyError (pid mid : Nat) (raw : String)
    (rest : List String) (recs : List OutputRecord)
    (h : run_generation pid mid (raw :: rest) = .emptyError recs) :
    recs = [mkPenaltyRecord raw pid mid emptyComment] := by
  simp only [run_generation] at h
  repeat' split at h
  all_goals
    first
    | exact GenResult.noConfusion h
    | exact finish_generation_emptyError _ _ _ _ _ _ h

/-! ## Helper lemmas: softmax -/

/-- Dividing every element of a list by a constant divides the sum. -/
theorem sum_map_div (l : List ℝ) (d : ℝ) :
    (l.map (fun e => e / d)).sum = l.sum / d := by
  induction l with
  | nil => simp
  | cons x xs ih => simp [ih, add_div]

/-- Multiplying every mapped element by a constant multiplies the sum. -/
theorem sum_map_mul_const (l : List ℝ) (f : ℝ → ℝ) (k : ℝ) :
    (l.map (fun w => f w * k)).sum = (l.map f).sum * k := by
  induction l with
  | nil => simp
  | cons x xs ih => simp [ih, add_mul]

/-- Pointwise-equal functions map lists to equal lists. -/
theorem map_congr_fun {α β : Type} (l : List α) (f g : α → β)
    (h : ∀ x, f x = g x) : l.map f = l.map g := by
  induction l with
  | nil => rfl
  | cons x xs ih => simp only [List.map_cons, ih]; rw [h x]

/-- The sum of the exponentials of a nonempty list is positive. -/
theorem exps_sum_pos (ws : List ℝ) (t : ℝ) (hw : ws ≠ []) :
    0 < (ws.map (fun w => Real.exp (w / t))).sum := by
  apply List.sum_pos
  · intro x hx
    obtain ⟨w, _, rfl⟩ := List.mem_map.mp hx
    exact Real.exp_pos _
  · intro hmap
    exact hw (List.map_eq_nil_iff.mp hmap)

/-- The softmax distribution of a nonempty weight list sums to one. -/
theorem softmax_sum_one (ws : List ℝ) (t : ℝ) (hw : ws ≠ []) :
    (softmax ws t).sum = 1 := by
  unfold softmax
  rw [sum_map_div]
  exact div_self (ne_of_gt (exps_sum_pos ws t hw))

/-- Every entry of the softmax distribution of a nonempty weight list is
strictly positive. -/
theorem softmax_pos (ws : List ℝ) (t : ℝ) (hw : ws ≠ []) :
    ∀ p ∈ softmax ws t, 0 < p := by
  intro p hp
  unfold softmax at hp
  obtain ⟨e, he, rfl⟩ := List.mem_map.mp hp
  obtain ⟨w, _, rfl⟩ := List.mem_map.mp he
  exact div_pos (Real.exp_pos _) (exps_sum_pos ws t hw)

/-- softmax is invariant under adding a constant to every weight. -/
theorem softmax_add_const (ws : List ℝ) (c t : ℝ) :
    softmax (ws.map (fun w => w + c)) t = softmax ws t := by
  unfold softmax
  simp only [List.map_map]
  have hfun : ((fun w => Real.exp (w / t)) ∘ fun w => w + c)
      = fun w => Real.exp (w / t) * Real.exp (c / t) := by
    funext w
    simp only [Function.comp]
    rw [add_div, Real.exp_add]
  rw [hfun, sum_map_mul_const]
  apply map_congr_fun
  intro w
  simp only [Function.comp]
  rw [mul_div_mul_right _ _ (Real.exp_ne_zero (c / t))]

/-- shift_scores preserves the length of the score list. -/
theorem shift_scores_length (scores : List Int) :
    (shift_scores scores).length = scores.length := by
  cases scores with
  | nil => rfl
  | cons s rest =>
    simp only [shift_scores]
    split
    next => simp
    next => rfl

/-- Casting a uniformly shifted integer list to the reals equals shifting
the casted list by the casted constant. -/
theorem cast_sub_eq_add_neg (scores : List Int) (m : Int) :
    (scores.map (fun x => x - m)).map (fun s : Int => (s : ℝ))
      = (scores.map (fun s : Int => (s : ℝ))).map (fun x => x + (-(m : ℝ))) := by
  induction scores with
  | nil => rfl
  | cons x xs ih =>
    show ((x - m : Int) : ℝ) :: (xs.map (fun x => x - m)).map (fun s : Int => (s : ℝ))
        = ((x : ℝ) + (-(m : ℝ))) :: (xs.map (fun s : Int => (s : ℝ))).map (fun x => x + (-(m : ℝ)))
    rw [ih]
    congr 1
    push_cast
    ring

/-! ## Helper lemmas: substring search -/

/-- A pattern found in a list is still found after prepending characters. -/
theorem splitOnSub_append_isSome (pat l2 : List Char)
    (h : (splitOnSub pat l2).isSome = true) :
    ∀ l1 : List Char, (splitOnSub pat (l1 ++ l2)).isSome = true := by
  intro l1
  induction l1 with
  | nil => simpa using h
  | cons c cs ih =>
    rw [List.cons_append]
    unfold splitOnSub
    by_cases hp : pat.isPrefixOf (c :: (cs ++ l2))
    · rw [if_pos hp]
      rfl
    · rw [if_neg hp]
      obtain ⟨pr, hpr⟩ := Option.isSome_iff_exists.mp ih
      rw [hpr]
      cases pr
      rfl

/-- A pattern contained in a string is contained in any right extension. -/
theorem containsSub_append_right (pat s2 : String)
    (h : containsSub pat s2 = true) (s1 : String) :
    containsSub pat (s1 ++ s2) = true := by
  unfold containsSub at h ⊢
  rw [String.data_append]
  exact splitOnSub_append_isSome pat.data s2.data h s1.data

/-! ## Claim theorems -/

/-- C1 (code bug): the /suggestions endpoint passes the mode query
parameter to get_suggestion as a plain string, and a string never equals
a Mode enum member, so the dispatch falls through to the random branch
for every mode value supplied through the endpoint — the highest and
weighted policies are unreachable from the caller interface, contrary to
the claim. Had the endpoint passed Mode enum members (the annotated type
of get_suggestion), each mode would select its named policy. -/
theorem mode_dispatch_ignores_string_mode :
    (∀ mode : String, get_tweet_suggestion_policy mode = .random_policy)
    ∧ get_tweet_suggestion_policy "highest" = .random_policy
    ∧ get_tweet_suggestion_policy "weighted" = .random_policy
    ∧ get_tweet_suggestion_policy "random" = .random_policy
    ∧ selection_policy (.enum Mode.HIGHEST) = .highest_policy
    ∧ selection_policy (.enum Mode.WEIGHTED) = .weighted_policy
    ∧ selection_policy (.enum Mode.RANDOM) = .random_policy :=
  ⟨fun _ => rfl, rfl, rfl, rfl, rfl, rfl, rfl⟩

/-- C2 counterexample: on an empty candidate pool, the random selectors
do not fail — they return no row (Python None, the .first() of an empty
result), silently handing None back to the caller — and the highest
selectors raise AttributeError while constructing their order_by, not the
NoCandidatesError ValueError; so the claim that every selection mode
fails with a NoCandidatesError is false. -/
theorem empty_pool_not_no_candidates :
    select_random_prompt emptyDB none 0 = none
    ∧ select_random_model emptyDB 0 = none
    ∧ select_highest_rated_prompt emptyDB none = .error .attributeError
    ∧ select_highest_rated_model emptyDB = .error .attributeError :=
  ⟨rfl, rfl, rfl, rfl⟩

/-- C2 (amended): on an empty candidate pool, only the weighted selectors
raise the ValueError the spec calls NoCandidatesError (their emptiness
check runs before any score query); the random selectors return no row
without raising; and the highest selectors raise AttributeError — on
every call, empty pool or not — because the invalid order_by expression
is constructed before the query runs. -/
theorem empty_pool_behavior (db : DB) (dom : Option Nat) (t : ℝ) :
    (prompt_candidates db dom PromptType.TEXT = [] →
      select_weighted_prompt db dom t
          = .error (.valueError "No prompts available for the specified domain")
      ∧ ∀ pick, select_random_prompt db dom pick = none)
    ∧ (model_candidates db = [] →
      select_weighted_model db t = .error (.valueError "No models available")
      ∧ ∀ pick, select_random_model db pick = none)
    ∧ select_highest_rated_prompt db dom = .error .attributeError
    ∧ select_highest_rated_model db = .error .attributeError := by
  refine ⟨?_, ?_, rfl, rfl⟩
  · intro h
    constructor
    · unfold select_weighted_prompt
      rw [if_pos h]
    · intro pick
      unfold select_random_prompt
      rw [h]
      rfl
  · intro h
    constructor
    · unfold select_weighted_model
      rw [if_pos h]
    · intro pick
      unfold select_random_model
      rw [h]
      rfl

/-- C2 witness: the amended behavior at the empty store. -/
theorem empty_pool_behavior_witness :
    select_weighted_prompt emptyDB none 1
        = .error (.valueError "No prompts available for the specified domain")
    ∧ select_weighted_model emptyDB 1 = .error (.valueError "No models available") :=
  ⟨((empty_pool_behavior emptyDB none 1).1 rfl).1,
   ((empty_pool_behavior emptyDB none 1).2.1 rfl).1⟩

set_option maxRecDepth 100000 in
/-- C3: whenever the generation pipeline returns a suggestion, its text
is at most 280 characters; and on the stub that returns a 300-character
string and then a 50-character string after the shorten instruction, the
pipeline emits the 50-character string and persists exactly one
negatively scored record, for the over-length attempt. -/
theorem generation_length_bound :
    (∀ (pid mid : Nat) (responses : List String) (s : Suggestion)
      (recs : List OutputRecord),
      run_generation pid mid responses = .ok s recs → s.text.length ≤ 280)
    ∧ run_generation 1 2 [tweet300, tweet50]
        = .ok ⟨tweet50, 1, 2⟩ [mkPenaltyRecord tweet300 1 2 overLengthComment] := by
  constructor
  · intro pid mid responses s recs h
    exact run_generation_ok_length pid mid responses s recs h
  · decide

set_option maxRecDepth 100000 in
/-- C3 witness: the universal bound applied to the length-enforcement
scenario. -/
theorem generation_length_bound_witness : tweet50.length ≤ 280 :=
  generation_length_bound.1 1 2 [tweet300, tweet50] ⟨tweet50, 1, 2⟩
    [mkPenaltyRecord tweet300 1 2 overLengthComment] (by decide)

set_option maxRecDepth 100000 in
/-- C4: whenever the pipeline fails with the empty-text error (the
ValueError the spec calls EmptyGenerationError), exactly one negatively
scored record — score -1 with the explanatory comment — is persisted
against the raw model response, and no retry follows; and the stub that
returns only a deliberative block and then an empty fallback extraction
produces exactly that failure with exactly one such record. -/
theorem empty_generation_penalty :
    (∀ (pid mid : Nat) (raw : String) (rest : List String)
      (recs : List OutputRecord),
      run_generation pid mid (raw :: rest) = .emptyError recs →
      recs = [⟨raw, pid, mid, [⟨-1, some emptyComment⟩]⟩])
    ∧ run_generation 1 2 [onlyThinking, ""]
        = .emptyError [⟨onlyThinking, 1, 2, [⟨-1, some emptyComment⟩]⟩] := by
  constructor
  · intro pid mid raw rest recs h
    exact run_generation_emptyError pid mid raw rest recs h
  · decide

set_option maxRecDepth 100000 in
/-- C4 witness: the record characterization applied to the
empty-after-fallbacks scenario. -/
theorem empty_generation_penalty_witness :
    ([⟨onlyThinking, 1, 2, [⟨-1, some emptyComment⟩]⟩] : List OutputRecord)
      = [⟨onlyThinking, 1, 2, [⟨-1, some emptyComment⟩]⟩] :=
  empty_generation_penalty.1 1 2 onlyThinking [""]
    [⟨onlyThinking, 1, 2, [⟨-1, some emptyComment⟩]⟩] (by decide)

/-- C5 counterexample: the stripping pattern matches thinking tags, not
think tags, so the spec's example input is returned unchanged and does
not strip to the claimed result. -/
theorem think_tag_not_stripped :
    remove_thinking_tags "<think>plan</think>Final tweet text"
      = "<think>plan</think>Final tweet text"
    ∧ remove_thinking_tags "<think>plan</think>Final tweet text"
      ≠ "Final tweet text" := by
  decide

/-- C5 (amended): the sanitization step strips every thinking-tag block
non-greedily and across multiple lines; the delimiter is the thinking
tag, so the round-trip example holds with thinking tags in place of the
spec's think tags. -/
theorem thinking_tag_stripping :
    remove_thinking_tags "<thinking>plan</thinking>Final tweet text"
      = "Final tweet text"
    ∧ remove_thinking_tags "<thinking>line one\nline two</thinking>Done" = "Done"
    ∧ remove_thinking_tags "a<thinking>x</thinking>b<thinking>y</thinking>c"
      = "abc" := by
  decide

/-- C6: for every nonempty score list — in particular one with a negative
minimum — the weighted-selection probability vector (softmax at
temperature 1 of the shifted scores) sums to 1 and gives every candidate,
including one holding the minimum score, strictly positive probability. -/
theorem weighted_distribution_valid (scores : List Int) (h : scores ≠ []) :
    (softmax ((shift_scores scores).map (fun s : Int => (s : ℝ))) 1).sum = 1
    ∧ ∀ p ∈ softmax ((shift_scores scores).map (fun s : Int => (s : ℝ))) 1, 0 < p := by
  have hne : (shift_scores scores).map (fun s : Int => (s : ℝ)) ≠ [] := by
    intro hmap
    apply h
    have hlen := congrArg List.length hmap
    simp only [List.length_map, shift_scores_length, List.length_nil] at hlen
    exact List.length_eq_zero.mp hlen
  exact ⟨softmax_sum_one _ _ hne, softmax_pos _ _ hne⟩

/-- C6 witness: the distribution over the scores -2 and 1, whose minimum
is negative. -/
theorem weighted_distribution_valid_witness :
    ([-2, 1] : List Int) ≠ []
    ∧ ((softmax ((shift_scores [-2, 1]).map (fun s : Int => (s : ℝ))) 1).sum = 1
      ∧ ∀ p ∈ softmax ((shift_scores [-2, 1]).map (fun s : Int => (s : ℝ))) 1, 0 < p) :=
  ⟨by decide, weighted_distribution_valid [-2, 1] (by decide)⟩

/-- C7 (code bug): HIGHEST-mode selection never returns any candidate on
any store — evaluating TextOutput.feedback.score while building the
order_by raises AttributeError before the query runs, so the selectors
cannot return the greatest-summed-score prompt or model that their own
docstrings and the spec describe. -/
theorem highest_mode_raises_attribute_error (db : DB) (dom : Option Nat) :
    select_highest_rated_prompt db dom = .error .attributeError
    ∧ select_highest_rated_model db = .error .attributeError :=
  ⟨rfl, rfl⟩

/-- C8 counterexample: the rewrite path persists the tag-stripped model
response unchanged, so a rewritten text lacking the context placeholder
is persisted without it — the claim that every prompt persisted by the
rewrite path contains the placeholder is false. -/
theorem rewrite_placeholder_missing :
    containsSub context_placeholder (rewrite_prompt_text "Write a concise tweet.")
      = false := by
  decide

/-- C8 (amended): every prompt persisted by the prompt-creation path
contains the context placeholder, appended when missing; the rewrite path
performs no such append — it persists the tag-stripped model response
as-is, so the placeholder is present only when that text contains it. -/
theorem creation_appends_placeholder :
    (∀ t : String, containsSub context_placeholder (add_prompt_text t) = true)
    ∧ ∀ r : String, rewrite_prompt_text r = remove_thinking_tags r := by
  constructor
  · intro t
    unfold add_prompt_text
    by_cases h : containsSub context_placeholder t = true
    · rw [if_pos h]
      exact h
    · rw [if_neg h]
      exact containsSub_append_right context_placeholder _ (by decide) t
  · intro r
    rfl

set_option maxRecDepth 100000 in
/-- C9: the emptiness check runs only before the shortening loop — when
the first response is a 300-character text and the shortening response
strips to the empty string, the pipeline returns the empty text (length
0, within the bound) without an error and persists only the over-length
record, none for the empty result. -/
theorem empty_check_precedes_loop :
    run_generation 1 2 [tweet300, thinkingOnlyShorten]
      = .ok ⟨"", 1, 2⟩ [mkPenaltyRecord tweet300 1 2 overLengthComment] := by
  decide

/-- C10: softmax is unchanged by any uniform shift of the scores at any
positive temperature; consequently the weighted selectors' conditional
shift — applied only when the minimum score is negative — never changes
the sampling distribution. -/
theorem softmax_shift_invariant :
    (∀ (scores : List ℝ) (c t : ℝ), 0 < t →
      softmax (scores.map (fun s => s + c)) t = softmax scores t)
    ∧ ∀ (scores : List Int) (t : ℝ), 0 < t →
      softmax ((shift_scores scores).map (fun s : Int => (s : ℝ))) t
        = softmax (scores.map (fun s : Int => (s : ℝ))) t := by
  constructor
  · intro scores c t _
    exact softmax_add_const scores c t
  · intro scores t _
    cases scores with
    | nil => rfl
    | cons s rest =>
      by_cases hm : rest.foldl min s < 0
      · have hshift : shift_scores (s :: rest)
            = (s :: rest).map (fun x => x - rest.foldl min s) := by
          simp only [shift_scores]
          rw [if_pos hm]
        rw [hshift, cast_sub_eq_add_neg]
        exact softmax_add_const _ _ t
      · have hshift : shift_scores (s :: rest) = s :: rest := by
          simp only [shift_scores]
          rw [if_neg hm]
        rw [hshift]

/-- C10 witness: shift invariance at the scores 5 and -3, shift 2,
temperature 1. -/
theorem softmax_shift_invariant_witness :
    (0 : ℝ) < 1
    ∧ softmax (([5, -3] : List ℝ).map (fun s => s + 2)) 1
        = softmax ([5, -3] : List ℝ) 1 :=
  ⟨one_pos, softmax_shift_invariant.1 [5, -3] 2 1 one_pos⟩

end XAuto
